import Mathlib

/-!
Verification of the bitbucket-webhooks dispatcher (`Webhook`, `NewWebhook`,
`Webhook.Handle`, `Webhook.ServeHTTP`, `Webhook.badRequest`, `eventTypeMap`).

The Go code is shallowly embedded as pure Lean functions.  Side effects of
one `ServeHTTP` call (map lookups, payload allocation, body read, the
`LogOnError` callback, `log.Printf`, handler invocation, response write) are
recorded in order as an explicit list of `Act`s; the HTTP response is
read off the trace, with the `net/http` default of `200` and empty body when
the handler returns without writing.  Go maps are modeled by `GoMap`:
lookup on a nil map yields `none`, assignment to a nil map panics, which is
modeled by `GoMap.insert` returning `none`.  JSON decoding
(`encoding/json`, external to this repository) is an explicit `Decoder`
parameter: it receives the payload shape resolved from `eventTypeMap` and
the raw body and either fails with a parse-error message or produces the
decoded payload value that the handler receives.
-/

/-- Headers as built by `ServeHTTP`: a map from header name to string value,
modeled as an association list. -/
abbrev Headers := List (String × String)

/-- Model of Go `http.Header.Get` / map indexing: the stored value, or the
empty string when the key is absent. -/
def headersGet (hs : Headers) (k : String) : String :=
  (hs.lookup k).getD ""

/-- The payload shapes named by `eventTypeMap` (one per Go event struct). -/
inductive EventType where
  | repoPushEvent
  | repoForkEvent
  | repoCommitCommentCreatedEvent
  | repoCommitStatusCreatedEvent
  | repoCommitStatusUpdatedEvent
  | issueCreatedEvent
  | issueUpdatedEvent
  | issueCommentCreatedEvent
  | pullRequestCreatedEvent
  | pullRequestUpdatedEvent
  | pullRequestApprovedEvent
  | pullRequestApprovalRemovedEvent
  | pullRequestMergedEvent
  | pullRequestDeclinedEvent
  | pullRequestCommentCreatedEvent
  | pullRequestCommentUpdatedEvent
  | pullRequestCommentDeletedEvent
deriving DecidableEq, Repr

/-- The package-level `eventTypeMap`: the fixed catalog mapping event keys to
payload shapes. -/
def eventTypeMap (k : String) : Option EventType :=
  if k = "repo:push" then some EventType.repoPushEvent
  else if k = "repo:fork" then some EventType.repoForkEvent
  else if k = "repo:commit_comment_created" then some EventType.repoCommitCommentCreatedEvent
  else if k = "repo:commit_status_created" then some EventType.repoCommitStatusCreatedEvent
  else if k = "repo:commit_status_updated" then some EventType.repoCommitStatusUpdatedEvent
  else if k = "issue:created" then some EventType.issueCreatedEvent
  else if k = "issue:updated" then some EventType.issueUpdatedEvent
  else if k = "issue:comment_created" then some EventType.issueCommentCreatedEvent
  else if k = "pullrequest:created" then some EventType.pullRequestCreatedEvent
  else if k = "pullrequest:updated" then some EventType.pullRequestUpdatedEvent
  else if k = "pullrequest:approved" then some EventType.pullRequestApprovedEvent
  else if k = "pullrequest:unapproved" then some EventType.pullRequestApprovalRemovedEvent
  else if k = "pullrequest:fulfilled" then some EventType.pullRequestMergedEvent
  else if k = "pullrequest:rejected" then some EventType.pullRequestDeclinedEvent
  else if k = "pullrequest:comment_created" then some EventType.pullRequestCommentCreatedEvent
  else if k = "pullrequest:comment_updated" then some EventType.pullRequestCommentUpdatedEvent
  else if k = "pull_request:comment_deleted" then some EventType.pullRequestCommentDeletedEvent
  else none

/-- The 17 catalog keys, in source order. -/
def catalogKeys : List String :=
  ["repo:push", "repo:fork", "repo:commit_comment_created",
   "repo:commit_status_created", "repo:commit_status_updated",
   "issue:created", "issue:updated", "issue:comment_created",
   "pullrequest:created", "pullrequest:updated", "pullrequest:approved",
   "pullrequest:unapproved", "pullrequest:fulfilled", "pullrequest:rejected",
   "pullrequest:comment_created", "pullrequest:comment_updated",
   "pull_request:comment_deleted"]

/-- A Go map from string keys, distinguishing the nil map (the zero value)
from a non-nil map holding entries. -/
inductive GoMap (α : Type) where
  | nil : GoMap α
  | entries : List (String × α) → GoMap α

/-- Go map read: reading a nil map yields no value; otherwise look the key
up among the entries. -/
def GoMap.lookup {α : Type} : GoMap α → String → Option α
  | GoMap.nil, _ => none
  | GoMap.entries es, k => es.lookup k

/-- Store `v` under `k` in an association list, overwriting an existing
binding of `k` and keeping all other bindings. -/
def assocUpdate {α : Type} : List (String × α) → String → α → List (String × α)
  | [], k, v => [(k, v)]
  | (k0, v0) :: rest, k, v =>
    if k0 = k then (k, v) :: rest else (k0, v0) :: assocUpdate rest k v

/-- Go map assignment `m[k] = v`: panics on a nil map (modeled as `none`),
otherwise overwrites the binding of `k`. -/
def GoMap.insert {α : Type} : GoMap α → String → α → Option (GoMap α)
  | GoMap.nil, _, _ => none
  | GoMap.entries es, k, v => some (GoMap.entries (assocUpdate es k v))

/-- A `WebhookHandler` callback: receives the headers and the decoded
payload, and returns an error message or `none` for success. -/
def WebhookHandler (P : Type) := Headers → P → Option String

/-- The `Webhook` struct.  `logOnError` records whether the optional
`LogOnError` callback field is non-nil; its invocations are recorded in the
dispatch trace. -/
structure Webhook (P : Type) where
  logOnError : Bool
  handlers : GoMap (WebhookHandler P)

/-- `NewWebhook`: a `Webhook` with an empty (non-nil) handler map and the
`LogOnError` field at its zero value (nil). -/
def NewWebhook (P : Type) : Webhook P :=
  Webhook.mk false (GoMap.entries [])

/-- The zero value of the `Webhook` struct: nil callback, nil handler map. -/
def zeroWebhook (P : Type) : Webhook P :=
  Webhook.mk false GoMap.nil

/-- `Webhook.Handle`: registers `handler` under `eventKey`.  The map
assignment panics (`none`) when the handler map is nil. -/
def Webhook.Handle {P : Type} (wh : Webhook P) (eventKey : String)
    (handler : WebhookHandler P) : Option (Webhook P) :=
  match wh.handlers.insert eventKey handler with
  | none => none
  | some m => some (Webhook.mk wh.logOnError m)

/-- One inbound request: its headers and its raw body. -/
structure Request where
  headers : List (String × String)
  body : String

/-- The observable steps of one `ServeHTTP` call, in execution order. -/
inductive Act (P : Type) where
  | lookupHandler : String → Act P
  | lookupCatalog : String → Act P
  | allocPayload : Act P
  | readBody : Act P
  | logOnError : String → Act P
  | logStd : String → Act P
  | invokeHandler : Headers → P → Act P
  | writeResponse : Nat → String → Act P
deriving DecidableEq

/-- A decoder standing for `encoding/json`: given the payload shape resolved
from the catalog and the raw body, it fails with the parser's error message
or yields the decoded payload. -/
def Decoder (P : Type) := EventType → String → Except String P

/-- `Webhook.badRequest`: formats the message, invokes `LogOnError` when it
is set, then writes a 400 response whose body is the message (Go
`http.Error` appends a newline). -/
def Webhook.badRequest {P : Type} (wh : Webhook P) (fmsg : String) :
    List (Act P) :=
  (if wh.logOnError then [Act.logOnError fmsg] else []) ++
    [Act.writeResponse 400 (fmsg ++ "\n")]

/-- `Webhook.ServeHTTP` as a trace of its observable steps: extract the
header set, check the event key, look up the handler, look up the payload
shape, allocate a payload, decode the body into it, and invoke the handler;
each failure writes a 400 response and stops. -/
def Webhook.ServeHTTP {P : Type} (wh : Webhook P) (decode : Decoder P)
    (r : Request) : List (Act P) :=
  let headers : Headers := [("X-Event-Key", headersGet r.headers "X-Event-Key")]
  let eventKey := headersGet headers "X-Event-Key"
  if eventKey = "" then
    wh.badRequest "Missing X-Event-Key"
  else
    Act.lookupHandler eventKey ::
      match wh.handlers.lookup eventKey with
      | none => wh.badRequest ("No handler for the event key: " ++ eventKey)
      | some handler =>
        Act.lookupCatalog eventKey ::
          match eventTypeMap eventKey with
          | none => wh.badRequest ("Unsupported event key type: " ++ eventKey)
          | some t =>
            Act.allocPayload ::
              Act.readBody ::
                match decode t r.body with
                | Except.error e =>
                    [Act.logStd ("Error parsing the body: " ++ e),
                     Act.writeResponse 400 ("Read error: " ++ e ++ "\n")]
                | Except.ok event =>
                    Act.invokeHandler headers event ::
                      match handler headers event with
                      | some e => wh.badRequest ("Error handling the event: " ++ e)
                      | none => []

/-- The last response write in a trace, if any. -/
def lastWrite {P : Type} : List (Act P) → Option (Nat × String)
  | [] => none
  | a :: rest =>
    match lastWrite rest with
    | some w => some w
    | none =>
      match a with
      | Act.writeResponse s b => some (s, b)
      | _ => none

/-- The HTTP response observed by the client: the written status and body,
or the `net/http` default of status 200 with an empty body when `ServeHTTP`
returns without writing. -/
def httpResponse {P : Type} (t : List (Act P)) : Nat × String :=
  (lastWrite t).getD (200, "")

/-- Whether an action is a handler invocation. -/
def Act.isInvoke {P : Type} : Act P → Bool
  | Act.invokeHandler _ _ => true
  | _ => false

/-- Whether an action is a `LogOnError` callback invocation. -/
def Act.isLogOnError {P : Type} : Act P → Bool
  | Act.logOnError _ => true
  | _ => false

/-- Whether an action is a `log.Printf` call. -/
def Act.isLogStd {P : Type} : Act P → Bool
  | Act.logStd _ => true
  | _ => false

/-- Whether an action is the payload allocation. -/
def Act.isAlloc {P : Type} : Act P → Bool
  | Act.allocPayload => true
  | _ => false

/-- Whether an action is the body read. -/
def Act.isReadBody {P : Type} : Act P → Bool
  | Act.readBody => true
  | _ => false

/-- Whether an action is a handler-registry lookup. -/
def Act.isLookupHandler {P : Type} : Act P → Bool
  | Act.lookupHandler _ => true
  | _ => false

/-- Whether an action is a payload-catalog lookup. -/
def Act.isLookupCatalog {P : Type} : Act P → Bool
  | Act.lookupCatalog _ => true
  | _ => false

/-- The spec's failure taxonomy, classifying which branch of `ServeHTTP`
handled the request. -/
inductive Outcome where
  | missingEventKey : Outcome
  | unknownHandler : Outcome
  | unsupportedEventKey : Outcome
  | bodyParseError : String → Outcome
  | handlerError : String → Outcome
  | success : Outcome
deriving DecidableEq, Repr

/-- Classifier of `ServeHTTP` dispatches by the spec's taxonomy, following
the branch structure of the source exactly. -/
def Webhook.dispatchOutcome {P : Type} (wh : Webhook P) (decode : Decoder P)
    (r : Request) : Outcome :=
  let headers : Headers := [("X-Event-Key", headersGet r.headers "X-Event-Key")]
  let eventKey := headersGet headers "X-Event-Key"
  if eventKey = "" then
    Outcome.missingEventKey
  else
    match wh.handlers.lookup eventKey with
    | none => Outcome.unknownHandler
    | some handler =>
      match eventTypeMap eventKey with
      | none => Outcome.unsupportedEventKey
      | some t =>
        match decode t r.body with
        | Except.error e => Outcome.bodyParseError e
        | Except.ok event =>
          match handler headers event with
          | some e => Outcome.handlerError e
          | none => Outcome.success

/-! Helper lemmas shared by the claim theorems. -/

/-- Reading back the single header stored by `ServeHTTP` yields its value. -/
theorem headersGet_single (k v : String) : headersGet [(k, v)] k = v := by
  simp [headersGet, List.lookup]

/-- Updating an association list stores the new value under the key. -/
theorem lookup_assocUpdate_self {α : Type} (es : List (String × α)) (k : String)
    (v : α) : (assocUpdate es k v).lookup k = some v := by
  induction es with
  | nil => simp [assocUpdate, List.lookup]
  | cons hd tl ih =>
    obtain ⟨k0, v0⟩ := hd
    by_cases hk : k0 = k
    · simp [assocUpdate, hk, List.lookup]
    · simp [assocUpdate, hk, List.lookup]
      have : (k == k0) = false := by
        simp [beq_eq_false_iff_ne]
        intro he
        exact hk he.symm
      simp [this, ih]

/-- Updating an association list leaves all other keys unchanged. -/
theorem lookup_assocUpdate_ne {α : Type} (es : List (String × α)) (k k2 : String)
    (v : α) (h : k2 ≠ k) : (assocUpdate es k v).lookup k2 = es.lookup k2 := by
  induction es with
  | nil =>
    have hbeq : (k2 == k) = false := by simp [beq_eq_false_iff_ne, h]
    simp [assocUpdate, List.lookup, hbeq]
  | cons hd tl ih =>
    obtain ⟨k0, v0⟩ := hd
    by_cases hk : k0 = k
    · subst hk
      simp [assocUpdate, List.lookup]
      have : (k2 == k0) = false := by simp [beq_eq_false_iff_ne, h]
      simp [this]
    · simp [assocUpdate, hk, List.lookup]
      by_cases h2 : k2 = k0
      · subst h2
        simp
      · have : (k2 == k0) = false := by simp [beq_eq_false_iff_ne, h2]
        simp [this, ih]

/-! Claim theorems. -/

/-- C3: a request whose X-Event-Key header is absent or empty fails with
MissingEventKey: the whole trace is the `badRequest` call, the response is a
400 whose body contains "Missing X-Event-Key", and no registry lookup,
catalog lookup, payload allocation, body read or handler invocation
happens. -/
theorem serveHTTP_missing_event_key {P : Type} (wh : Webhook P)
    (decode : Decoder P) (r : Request)
    (h : headersGet r.headers "X-Event-Key" = "") :
    wh.ServeHTTP decode r = wh.badRequest "Missing X-Event-Key" ∧
    httpResponse (wh.ServeHTTP decode r) = (400, "Missing X-Event-Key" ++ "\n") ∧
    (wh.ServeHTTP decode r).countP Act.isLookupHandler = 0 ∧
    (wh.ServeHTTP decode r).countP Act.isLookupCatalog = 0 ∧
    (wh.ServeHTTP decode r).countP Act.isAlloc = 0 ∧
    (wh.ServeHTTP decode r).countP Act.isReadBody = 0 ∧
    (wh.ServeHTTP decode r).countP Act.isInvoke = 0 := by
  have e : wh.ServeHTTP decode r = wh.badRequest "Missing X-Event-Key" := by
    simp [Webhook.ServeHTTP, headersGet_single, h]
  refine ⟨e, ?_, ?_, ?_, ?_, ?_, ?_⟩ <;> rw [e] <;>
    cases hlo : wh.logOnError <;>
      simp [Webhook.badRequest, httpResponse, lastWrite, hlo,
        Act.isLookupHandler, Act.isLookupCatalog, Act.isAlloc,
        Act.isReadBody, Act.isInvoke]

/-- C3 witness: a concrete request with an absent header is rejected with a
400 response containing "Missing X-Event-Key". -/
theorem serveHTTP_missing_event_key_witness :
    httpResponse ((zeroWebhook Nat).ServeHTTP (fun _ _ => Except.ok 0)
      (Request.mk [] "ignored")) = (400, "Missing X-Event-Key" ++ "\n") :=
  (serveHTTP_missing_event_key (zeroWebhook Nat) (fun _ _ => Except.ok 0)
    (Request.mk [] "ignored") rfl).2.1

/-- C4: a request whose non-empty event key has no entry in the handler
registry fails with UnknownHandler right after the registry lookup,
regardless of catalog membership: the catalog is never consulted, no payload
is allocated, the body is never read, and no handler is invoked. -/
theorem serveHTTP_unknown_handler {P : Type} (wh : Webhook P)
    (decode : Decoder P) (r : Request) (k : String)
    (hk : headersGet r.headers "X-Event-Key" = k) (hne : k ≠ "")
    (hl : wh.handlers.lookup k = none) :
    wh.ServeHTTP decode r =
      Act.lookupHandler k ::
        wh.badRequest ("No handler for the event key: " ++ k) ∧
    httpResponse (wh.ServeHTTP decode r) =
      (400, "No handler for the event key: " ++ k ++ "\n") ∧
    (wh.ServeHTTP decode r).countP Act.isLookupCatalog = 0 ∧
    (wh.ServeHTTP decode r).countP Act.isAlloc = 0 ∧
    (wh.ServeHTTP decode r).countP Act.isReadBody = 0 ∧
    (wh.ServeHTTP decode r).countP Act.isInvoke = 0 := by
  have e : wh.ServeHTTP decode r =
      Act.lookupHandler k ::
        wh.badRequest ("No handler for the event key: " ++ k) := by
    simp [Webhook.ServeHTTP, headersGet_single, hk, hne, hl]
  refine ⟨e, ?_, ?_, ?_, ?_, ?_⟩ <;> rw [e] <;>
    cases hlo : wh.logOnError <;>
      simp [Webhook.badRequest, httpResponse, lastWrite, hlo,
        Act.isLookupCatalog, Act.isAlloc, Act.isReadBody, Act.isInvoke]

/-- C4 witness: dispatching `repo:push` (a cataloged key) to a freshly
constructed webhook with no registrations yields the UnknownHandler
response. -/
theorem serveHTTP_unknown_handler_witness :
    httpResponse ((NewWebhook Nat).ServeHTTP (fun _ _ => Except.ok 0)
      (Request.mk [("X-Event-Key", "repo:push")] "x")) =
      (400, "No handler for the event key: " ++ "repo:push" ++ "\n") :=
  (serveHTTP_unknown_handler (NewWebhook Nat) (fun _ _ => Except.ok 0)
    (Request.mk [("X-Event-Key", "repo:push")] "x") "repo:push"
    (by decide) (by decide) rfl).2.1


/-- A key the catalog rejects is none of the 17 listed event keys. -/
theorem not_mem_catalogKeys_of_eventTypeMap_none (k : String)
    (hc : eventTypeMap k = none) : k ∉ catalogKeys := by
  intro hm
  simp only [catalogKeys, List.mem_cons, List.not_mem_nil, or_false] at hm
  rcases hm with rfl | rfl | rfl | rfl | rfl | rfl | rfl | rfl | rfl | rfl |
    rfl | rfl | rfl | rfl | rfl | rfl | rfl <;>
    exact absurd hc (by decide)

/-- C5: a request whose event key has a registered handler but no catalog
entry fails with UnsupportedEventKey after the two lookups: no payload is
allocated, the body is never read, no handler is invoked, the key is outside
the 17-entry catalog, and this outcome is reachable only when a handler was
registered for an uncataloged key. -/
theorem serveHTTP_unsupported_event_key {P : Type} (wh : Webhook P)
    (decode : Decoder P) (r : Request) (k : String)
    (hk : headersGet r.headers "X-Event-Key" = k) (hne : k ≠ "")
    (hl : (wh.handlers.lookup k).isSome = true) (hc : eventTypeMap k = none) :
    wh.ServeHTTP decode r =
      Act.lookupHandler k :: Act.lookupCatalog k ::
        wh.badRequest ("Unsupported event key type: " ++ k) ∧
    httpResponse (wh.ServeHTTP decode r) =
      (400, "Unsupported event key type: " ++ k ++ "\n") ∧
    (wh.ServeHTTP decode r).countP Act.isAlloc = 0 ∧
    (wh.ServeHTTP decode r).countP Act.isReadBody = 0 ∧
    (wh.ServeHTTP decode r).countP Act.isInvoke = 0 ∧
    k ∉ catalogKeys ∧
    (∀ (wh2 : Webhook P) (d2 : Decoder P) (r2 : Request),
      wh2.dispatchOutcome d2 r2 = Outcome.unsupportedEventKey →
      headersGet r2.headers "X-Event-Key" ≠ "" ∧
      (wh2.handlers.lookup (headersGet r2.headers "X-Event-Key")).isSome = true ∧
      eventTypeMap (headersGet r2.headers "X-Event-Key") = none) := by
  obtain ⟨handler, hl2⟩ := Option.isSome_iff_exists.mp hl
  have e : wh.ServeHTTP decode r =
      Act.lookupHandler k :: Act.lookupCatalog k ::
        wh.badRequest ("Unsupported event key type: " ++ k) := by
    simp [Webhook.ServeHTTP, headersGet_single, hk, hne, hl2, hc]
  refine ⟨e, ?_, ?_, ?_, ?_, not_mem_catalogKeys_of_eventTypeMap_none k hc, ?_⟩
  · rw [e]
    cases hlo : wh.logOnError <;>
      simp [Webhook.badRequest, httpResponse, lastWrite, hlo]
  · rw [e]
    cases hlo : wh.logOnError <;>
      simp [Webhook.badRequest, hlo, Act.isAlloc]
  · rw [e]
    cases hlo : wh.logOnError <;>
      simp [Webhook.badRequest, hlo, Act.isReadBody]
  · rw [e]
    cases hlo : wh.logOnError <;>
      simp [Webhook.badRequest, hlo, Act.isInvoke]
  · intro wh2 d2 r2 ho
    simp only [Webhook.dispatchOutcome, headersGet_single] at ho
    by_cases hk2 : headersGet r2.headers "X-Event-Key" = ""
    · rw [if_pos hk2] at ho
      simp at ho
    · rw [if_neg hk2] at ho
      repeat' split at ho
      all_goals simp_all

/-- C5 witness: a handler registered under the uncataloged key "bogus:key"
yields the UnsupportedEventKey response when that key is dispatched. -/
theorem serveHTTP_unsupported_event_key_witness :
    httpResponse ((Webhook.mk false
        (GoMap.entries [("bogus:key", (fun _ _ => none : WebhookHandler Nat))])).ServeHTTP
      (fun _ _ => Except.ok 0) (Request.mk [("X-Event-Key", "bogus:key")] "x")) =
      (400, "Unsupported event key type: " ++ "bogus:key" ++ "\n") :=
  (serveHTTP_unsupported_event_key (Webhook.mk false
      (GoMap.entries [("bogus:key", (fun _ _ => none : WebhookHandler Nat))]))
    (fun _ _ => Except.ok 0) (Request.mk [("X-Event-Key", "bogus:key")] "x")
    "bogus:key" (by decide) (by decide) rfl (by decide)).2.1

/-- C6: a registered, cataloged event key whose body fails to decode yields
BodyParseError: the error is logged via the standard logger, the response is
a 400 whose body contains the parser's message verbatim, and the handler is
never invoked (nor is LogOnError). -/
theorem serveHTTP_body_parse_error {P : Type} (wh : Webhook P)
    (decode : Decoder P) (r : Request) (k : String)
    (handler : WebhookHandler P) (t : EventType) (e : String)
    (hk : headersGet r.headers "X-Event-Key" = k) (hne : k ≠ "")
    (hl : wh.handlers.lookup k = some handler)
    (hc : eventTypeMap k = some t)
    (hd : decode t r.body = Except.error e) :
    wh.ServeHTTP decode r =
      [Act.lookupHandler k, Act.lookupCatalog k, Act.allocPayload,
       Act.readBody, Act.logStd ("Error parsing the body: " ++ e),
       Act.writeResponse 400 ("Read error: " ++ e ++ "\n")] ∧
    httpResponse (wh.ServeHTTP decode r) = (400, "Read error: " ++ e ++ "\n") ∧
    (∃ pre post, "Read error: " ++ e ++ "\n" = pre ++ e ++ post) ∧
    (wh.ServeHTTP decode r).countP Act.isInvoke = 0 := by
  have etr : wh.ServeHTTP decode r =
      [Act.lookupHandler k, Act.lookupCatalog k, Act.allocPayload,
       Act.readBody, Act.logStd ("Error parsing the body: " ++ e),
       Act.writeResponse 400 ("Read error: " ++ e ++ "\n")] := by
    simp [Webhook.ServeHTTP, headersGet_single, hk, hne, hl, hc, hd]
  refine ⟨etr, ?_, ⟨"Read error: ", "\n", rfl⟩, ?_⟩ <;> rw [etr] <;>
    simp [httpResponse, lastWrite, Act.isInvoke]

/-- C6 witness: a concrete registered `repo:push` request whose decoder
fails with message "boom" produces the 400 Read-error response. -/
theorem serveHTTP_body_parse_error_witness :
    httpResponse ((Webhook.mk false
        (GoMap.entries [("repo:push", (fun _ _ => none : WebhookHandler Nat))])).ServeHTTP
      (fun _ _ => Except.error "boom")
      (Request.mk [("X-Event-Key", "repo:push")] "not json")) =
      (400, "Read error: " ++ "boom" ++ "\n") :=
  (serveHTTP_body_parse_error (Webhook.mk false
      (GoMap.entries [("repo:push", (fun _ _ => none : WebhookHandler Nat))]))
    (fun _ _ => Except.error "boom")
    (Request.mk [("X-Event-Key", "repo:push")] "not json") "repo:push"
    (fun _ _ => none) EventType.repoPushEvent "boom"
    (by decide) (by decide) rfl (by decide) rfl).2.1

/-- C7: when the handler runs and returns an error, dispatch yields
HandlerError: a 400 response containing the handler's message verbatim,
after the handler executed; a nil handler return yields the 200 success
response instead.  In both cases the handler ran exactly once. -/
theorem serveHTTP_handler_error {P : Type} (wh : Webhook P)
    (decode : Decoder P) (r : Request) (k : String)
    (handler : WebhookHandler P) (t : EventType) (p : P)
    (hk : headersGet r.headers "X-Event-Key" = k) (hne : k ≠ "")
    (hl : wh.handlers.lookup k = some handler)
    (hc : eventTypeMap k = some t)
    (hd : decode t r.body = Except.ok p) :
    (∀ e, handler [("X-Event-Key", k)] p = some e →
      wh.ServeHTTP decode r =
        Act.lookupHandler k :: Act.lookupCatalog k :: Act.allocPayload ::
          Act.readBody :: Act.invokeHandler [("X-Event-Key", k)] p ::
            wh.badRequest ("Error handling the event: " ++ e) ∧
      httpResponse (wh.ServeHTTP decode r) =
        (400, "Error handling the event: " ++ e ++ "\n") ∧
      (∃ pre post, "Error handling the event: " ++ e ++ "\n" = pre ++ e ++ post) ∧
      (wh.ServeHTTP decode r).countP Act.isInvoke = 1) ∧
    (handler [("X-Event-Key", k)] p = none →
      httpResponse (wh.ServeHTTP decode r) = (200, "") ∧
      (wh.ServeHTTP decode r).countP Act.isInvoke = 1) := by
  constructor
  · intro e hh
    have etr : wh.ServeHTTP decode r =
        Act.lookupHandler k :: Act.lookupCatalog k :: Act.allocPayload ::
          Act.readBody :: Act.invokeHandler [("X-Event-Key", k)] p ::
            wh.badRequest ("Error handling the event: " ++ e) := by
      simp [Webhook.ServeHTTP, headersGet_single, hk, hne, hl, hc, hd, hh]
    refine ⟨etr, ?_, ⟨"Error handling the event: ", "\n", rfl⟩, ?_⟩ <;>
      rw [etr] <;> cases hlo : wh.logOnError <;>
        simp [Webhook.badRequest, httpResponse, lastWrite, hlo, Act.isInvoke]
  · intro hh
    have etr : wh.ServeHTTP decode r =
        [Act.lookupHandler k, Act.lookupCatalog k, Act.allocPayload,
         Act.readBody, Act.invokeHandler [("X-Event-Key", k)] p] := by
      simp [Webhook.ServeHTTP, headersGet_single, hk, hne, hl, hc, hd, hh]
    refine ⟨?_, ?_⟩ <;> rw [etr] <;>
      simp [httpResponse, lastWrite, Act.isInvoke]

/-- C7 witness: a concrete handler that returns the error "handler failure"
produces the corresponding 400 response on a registered `repo:push`
dispatch. -/
theorem serveHTTP_handler_error_witness :
    httpResponse ((Webhook.mk false
        (GoMap.entries [("repo:push",
          (fun _ _ => some "handler failure" : WebhookHandler Nat))])).ServeHTTP
      (fun _ _ => Except.ok 7)
      (Request.mk [("X-Event-Key", "repo:push")] "payload")) =
      (400, "Error handling the event: " ++ "handler failure" ++ "\n") :=
  ((serveHTTP_handler_error (Webhook.mk false
      (GoMap.entries [("repo:push",
        (fun _ _ => some "handler failure" : WebhookHandler Nat))]))
    (fun _ _ => Except.ok 7)
    (Request.mk [("X-Event-Key", "repo:push")] "payload") "repo:push"
    (fun _ _ => some "handler failure") EventType.repoPushEvent 7
    (by decide) (by decide) rfl (by decide) rfl).1 "handler failure" rfl).2.1

/-- C1: a registered pair whose event key is in the catalog, on a request
carrying that key with a body the decoder accepts, invokes the handler
exactly once with the extracted header set and the decoded payload, and
when the handler returns nil the response is a 200 success with empty
body. -/
theorem serveHTTP_success {P : Type} (wh : Webhook P)
    (decode : Decoder P) (r : Request) (k : String)
    (handler : WebhookHandler P) (t : EventType) (p : P)
    (hk : headersGet r.headers "X-Event-Key" = k) (hne : k ≠ "")
    (hl : wh.handlers.lookup k = some handler)
    (hc : eventTypeMap k = some t)
    (hd : decode t r.body = Except.ok p)
    (hh : handler [("X-Event-Key", k)] p = none) :
    wh.ServeHTTP decode r =
      [Act.lookupHandler k, Act.lookupCatalog k, Act.allocPayload,
       Act.readBody, Act.invokeHandler [("X-Event-Key", k)] p] ∧
    (wh.ServeHTTP decode r).countP Act.isInvoke = 1 ∧
    Act.invokeHandler [("X-Event-Key", k)] p ∈ wh.ServeHTTP decode r ∧
    httpResponse (wh.ServeHTTP decode r) = (200, "") := by
  have etr : wh.ServeHTTP decode r =
      [Act.lookupHandler k, Act.lookupCatalog k, Act.allocPayload,
       Act.readBody, Act.invokeHandler [("X-Event-Key", k)] p] := by
    simp [Webhook.ServeHTTP, headersGet_single, hk, hne, hl, hc, hd, hh]
  refine ⟨etr, ?_, ?_, ?_⟩ <;> rw [etr] <;>
    simp [httpResponse, lastWrite, Act.isInvoke]

/-- C1 witness: a concrete registered `repo:push` dispatch whose decoder
yields payload 7 and whose handler returns nil gets the 200 empty
response. -/
theorem serveHTTP_success_witness :
    httpResponse ((Webhook.mk false
        (GoMap.entries [("repo:push", (fun _ _ => none : WebhookHandler Nat))])).ServeHTTP
      (fun _ _ => Except.ok 7)
      (Request.mk [("X-Event-Key", "repo:push")] "payload")) = (200, "") :=
  (serveHTTP_success (Webhook.mk false
      (GoMap.entries [("repo:push", (fun _ _ => none : WebhookHandler Nat))]))
    (fun _ _ => Except.ok 7)
    (Request.mk [("X-Event-Key", "repo:push")] "payload") "repo:push"
    (fun _ _ => none) EventType.repoPushEvent 7
    (by decide) (by decide) rfl (by decide) rfl rfl).2.2.2

/-- The last write of a concatenation is the last write of the second part,
else of the first. -/
theorem lastWrite_append {P : Type} (xs ys : List (Act P)) :
    lastWrite (xs ++ ys) =
      match lastWrite ys with
      | some w => some w
      | none => lastWrite xs := by
  induction xs with
  | nil => cases h : lastWrite ys <;> simp [lastWrite, h]
  | cons a rest ih =>
    cases h : lastWrite ys <;> cases h2 : lastWrite rest <;>
      simp [lastWrite, ih, h, h2]

/-- `badRequest` always ends in the 400 write of its message. -/
theorem lastWrite_badRequest {P : Type} (wh : Webhook P) (m : String) :
    lastWrite (wh.badRequest m) = some (400, m ++ "\n") := by
  cases hlo : wh.logOnError <;> simp [Webhook.badRequest, hlo, lastWrite]

/-- Any trace ending in a `badRequest` call responds 400 with the message. -/
theorem httpResponse_append_badRequest {P : Type} (wh : Webhook P)
    (pre : List (Act P)) (m : String) :
    httpResponse (pre ++ wh.badRequest m) = (400, m ++ "\n") := by
  simp [httpResponse, lastWrite_append, lastWrite_badRequest]

/-- `badRequest` invokes `LogOnError` exactly when the callback is set. -/
theorem countP_logOnError_badRequest {P : Type} (wh : Webhook P) (m : String) :
    (wh.badRequest m).countP Act.isLogOnError =
      if wh.logOnError then 1 else 0 := by
  cases hlo : wh.logOnError <;>
    simp [Webhook.badRequest, hlo, Act.isLogOnError]

/-- Conclusion of the diagnostic-hook policy, established for any dispatch
whose trace ends in a `badRequest` call with a log-free prefix. -/
theorem logOnError_conclusion_of_badRequest {P : Type} (wh : Webhook P)
    (decode : Decoder P) (r : Request) (pre : List (Act P)) (m : String)
    (hpre : pre.countP Act.isLogOnError = 0)
    (etr : wh.ServeHTTP decode r = pre ++ wh.badRequest m)
    (hob : ∀ m2, wh.dispatchOutcome decode r ≠ Outcome.bodyParseError m2)
    (hos : wh.dispatchOutcome decode r ≠ Outcome.success) :
    ((wh.dispatchOutcome decode r = Outcome.missingEventKey ∨
      wh.dispatchOutcome decode r = Outcome.unknownHandler ∨
      wh.dispatchOutcome decode r = Outcome.unsupportedEventKey ∨
      (∃ m2, wh.dispatchOutcome decode r = Outcome.handlerError m2)) →
      (wh.logOnError = true →
        (wh.ServeHTTP decode r).countP Act.isLogOnError = 1 ∧
        ∃ pre2 fmsg, wh.ServeHTTP decode r =
          pre2 ++ [Act.logOnError fmsg, Act.writeResponse 400 (fmsg ++ "\n")]) ∧
      (wh.logOnError = false →
        (wh.ServeHTTP decode r).countP Act.isLogOnError = 0 ∧
        (httpResponse (wh.ServeHTTP decode r)).fst = 400)) ∧
    (∀ m2, wh.dispatchOutcome decode r = Outcome.bodyParseError m2 →
      (wh.ServeHTTP decode r).countP Act.isLogOnError = 0 ∧
      (wh.ServeHTTP decode r).countP Act.isLogStd = 1 ∧
      (httpResponse (wh.ServeHTTP decode r)).fst = 400) ∧
    (wh.dispatchOutcome decode r = Outcome.success →
      (wh.ServeHTTP decode r).countP Act.isLogOnError = 0) := by
  refine ⟨fun _ => ⟨fun hset => ⟨?_, pre, m, ?_⟩, fun hunset => ⟨?_, ?_⟩⟩,
    fun m2 hm2 => absurd hm2 (hob m2), fun hs => absurd hs hos⟩
  · rw [etr]
    simp [List.countP_append, hpre, countP_logOnError_badRequest, hset]
  · rw [etr]
    simp [Webhook.badRequest, hset]
  · rw [etr]
    simp [List.countP_append, hpre, countP_logOnError_badRequest, hunset]
  · rw [etr]
    rw [httpResponse_append_badRequest]

/-- C2 (amended): for the four failure modes routed through `badRequest`
(MissingEventKey, UnknownHandler, UnsupportedEventKey, HandlerError), a set
`LogOnError` callback is invoked exactly once with the formatted message,
immediately before the 400 response is written, and an unset callback leaves
only the 400 response; a BodyParseError failure never invokes `LogOnError`
(set or not) — it logs once via the standard logger and writes the 400
response; a successful dispatch never invokes `LogOnError`. -/
theorem logOnError_once_per_badRequest_failure {P : Type} (wh : Webhook P)
    (decode : Decoder P) (r : Request) :
    ((wh.dispatchOutcome decode r = Outcome.missingEventKey ∨
      wh.dispatchOutcome decode r = Outcome.unknownHandler ∨
      wh.dispatchOutcome decode r = Outcome.unsupportedEventKey ∨
      (∃ m2, wh.dispatchOutcome decode r = Outcome.handlerError m2)) →
      (wh.logOnError = true →
        (wh.ServeHTTP decode r).countP Act.isLogOnError = 1 ∧
        ∃ pre2 fmsg, wh.ServeHTTP decode r =
          pre2 ++ [Act.logOnError fmsg, Act.writeResponse 400 (fmsg ++ "\n")]) ∧
      (wh.logOnError = false →
        (wh.ServeHTTP decode r).countP Act.isLogOnError = 0 ∧
        (httpResponse (wh.ServeHTTP decode r)).fst = 400)) ∧
    (∀ m2, wh.dispatchOutcome decode r = Outcome.bodyParseError m2 →
      (wh.ServeHTTP decode r).countP Act.isLogOnError = 0 ∧
      (wh.ServeHTTP decode r).countP Act.isLogStd = 1 ∧
      (httpResponse (wh.ServeHTTP decode r)).fst = 400) ∧
    (wh.dispatchOutcome decode r = Outcome.success →
      (wh.ServeHTTP decode r).countP Act.isLogOnError = 0) := by
  by_cases hk : headersGet r.headers "X-Event-Key" = ""
  · have ho : wh.dispatchOutcome decode r = Outcome.missingEventKey := by
      simp [Webhook.dispatchOutcome, headersGet_single, hk]
    refine logOnError_conclusion_of_badRequest wh decode r []
      "Missing X-Event-Key" (by simp) ?_ ?_ ?_
    · simp [Webhook.ServeHTTP, headersGet_single, hk]
    · intro m2 h
      rw [ho] at h
      exact Outcome.noConfusion h
    · intro h
      rw [ho] at h
      exact Outcome.noConfusion h
  · cases hl : wh.handlers.lookup (headersGet r.headers "X-Event-Key") with
    | none =>
      have ho : wh.dispatchOutcome decode r = Outcome.unknownHandler := by
        simp [Webhook.dispatchOutcome, headersGet_single, hk, hl]
      refine logOnError_conclusion_of_badRequest wh decode r
        [Act.lookupHandler (headersGet r.headers "X-Event-Key")]
        ("No handler for the event key: " ++ headersGet r.headers "X-Event-Key")
        (by simp [Act.isLogOnError]) ?_ ?_ ?_
      · simp [Webhook.ServeHTTP, headersGet_single, hk, hl]
      · intro m2 h
        rw [ho] at h
        exact Outcome.noConfusion h
      · intro h
        rw [ho] at h
        exact Outcome.noConfusion h
    | some handler =>
      cases hc : eventTypeMap (headersGet r.headers "X-Event-Key") with
      | none =>
        have ho : wh.dispatchOutcome decode r = Outcome.unsupportedEventKey := by
          simp [Webhook.dispatchOutcome, headersGet_single, hk, hl, hc]
        refine logOnError_conclusion_of_badRequest wh decode r
          [Act.lookupHandler (headersGet r.headers "X-Event-Key"),
           Act.lookupCatalog (headersGet r.headers "X-Event-Key")]
          ("Unsupported event key type: " ++ headersGet r.headers "X-Event-Key")
          (by simp [Act.isLogOnError]) ?_ ?_ ?_
        · simp [Webhook.ServeHTTP, headersGet_single, hk, hl, hc]
        · intro m2 h
          rw [ho] at h
          exact Outcome.noConfusion h
        · intro h
          rw [ho] at h
          exact Outcome.noConfusion h
      | some t =>
        cases hd : decode t r.body with
        | error e =>
          have ho : wh.dispatchOutcome decode r = Outcome.bodyParseError e := by
            simp [Webhook.dispatchOutcome, headersGet_single, hk, hl, hc, hd]
          have etr : wh.ServeHTTP decode r =
              [Act.lookupHandler (headersGet r.headers "X-Event-Key"),
               Act.lookupCatalog (headersGet r.headers "X-Event-Key"),
               Act.allocPayload, Act.readBody,
               Act.logStd ("Error parsing the body: " ++ e),
               Act.writeResponse 400 ("Read error: " ++ e ++ "\n")] := by
            simp [Webhook.ServeHTTP, headersGet_single, hk, hl, hc, hd]
          refine ⟨fun hdis => False.elim ?_, fun m2 _ => ?_, fun hs => ?_⟩
          · rcases hdis with h | h | h | ⟨m2, h⟩ <;> rw [ho] at h <;>
              exact Outcome.noConfusion h
          · rw [etr]
            refine ⟨?_, ?_, ?_⟩ <;>
              simp [Act.isLogOnError, Act.isLogStd, httpResponse, lastWrite]
          · rw [ho] at hs
            exact Outcome.noConfusion hs
        | ok p =>
          cases hh : handler
              [("X-Event-Key", headersGet r.headers "X-Event-Key")] p with
          | some e =>
            have ho : wh.dispatchOutcome decode r = Outcome.handlerError e := by
              simp [Webhook.dispatchOutcome, headersGet_single, hk, hl, hc, hd, hh]
            refine logOnError_conclusion_of_badRequest wh decode r
              [Act.lookupHandler (headersGet r.headers "X-Event-Key"),
               Act.lookupCatalog (headersGet r.headers "X-Event-Key"),
               Act.allocPayload, Act.readBody,
               Act.invokeHandler
                 [("X-Event-Key", headersGet r.headers "X-Event-Key")] p]
              ("Error handling the event: " ++ e)
              (by simp [Act.isLogOnError]) ?_ ?_ ?_
            · simp [Webhook.ServeHTTP, headersGet_single, hk, hl, hc, hd, hh]
            · intro m2 h
              rw [ho] at h
              exact Outcome.noConfusion h
            · intro h
              rw [ho] at h
              exact Outcome.noConfusion h
          | none =>
            have ho : wh.dispatchOutcome decode r = Outcome.success := by
              simp [Webhook.dispatchOutcome, headersGet_single, hk, hl, hc, hd, hh]
            have etr : wh.ServeHTTP decode r =
                [Act.lookupHandler (headersGet r.headers "X-Event-Key"),
                 Act.lookupCatalog (headersGet r.headers "X-Event-Key"),
                 Act.allocPayload, Act.readBody,
                 Act.invokeHandler
                   [("X-Event-Key", headersGet r.headers "X-Event-Key")] p] := by
              simp [Webhook.ServeHTTP, headersGet_single, hk, hl, hc, hd, hh]
            refine ⟨fun hdis => False.elim ?_, fun m2 hm2 => ?_, fun _ => ?_⟩
            · rcases hdis with h | h | h | ⟨m2, h⟩ <;> rw [ho] at h <;>
                exact Outcome.noConfusion h
            · rw [ho] at hm2
              exact Outcome.noConfusion hm2
            · rw [etr]
              simp [Act.isLogOnError]

/-- C2 witness: on a request with no event key and a set callback, the
`LogOnError` callback runs exactly once. -/
theorem logOnError_once_witness :
    ((Webhook.mk true (GoMap.entries []) : Webhook Nat).ServeHTTP
      (fun _ _ => Except.ok 0) (Request.mk [] "")).countP
        Act.isLogOnError = 1 :=
  (((logOnError_once_per_badRequest_failure
      (Webhook.mk true (GoMap.entries []) : Webhook Nat)
      (fun _ _ => Except.ok 0) (Request.mk [] "")).1
    (Or.inl (by decide))).1 rfl).1

/-- C2 counterexample to the claim as stated: a failed dispatch in the
BodyParseError mode whose webhook has `LogOnError` set, yet the callback is
never invoked — the decode-error branch bypasses `badRequest` and logs via
the standard logger instead. -/
theorem logOnError_skipped_on_body_parse_error :
    (Webhook.mk true (GoMap.entries
        [("repo:push", (fun _ _ => none : WebhookHandler Unit))])).dispatchOutcome
      (fun _ _ => Except.error "unexpected EOF")
      (Request.mk [("X-Event-Key", "repo:push")] "bad") =
        Outcome.bodyParseError "unexpected EOF" ∧
    (Webhook.mk true (GoMap.entries
        [("repo:push", (fun _ _ => none : WebhookHandler Unit))])).logOnError
      = true ∧
    (httpResponse ((Webhook.mk true (GoMap.entries
        [("repo:push", (fun _ _ => none : WebhookHandler Unit))])).ServeHTTP
      (fun _ _ => Except.error "unexpected EOF")
      (Request.mk [("X-Event-Key", "repo:push")] "bad"))).fst = 400 ∧
    ((Webhook.mk true (GoMap.entries
        [("repo:push", (fun _ _ => none : WebhookHandler Unit))])).ServeHTTP
      (fun _ _ => Except.error "unexpected EOF")
      (Request.mk [("X-Event-Key", "repo:push")] "bad")).countP
        Act.isLogOnError = 0 :=
  ⟨by decide, rfl, by decide, by decide⟩

/-- A webhook whose registry resolves no key (nil or empty map) answers
every request with a 400, invokes no handler, and classifies every dispatch
as MissingEventKey or UnknownHandler. -/
theorem serveHTTP_no_handler_400 {P : Type} (wh : Webhook P)
    (hempty : ∀ k2, wh.handlers.lookup k2 = none)
    (decode : Decoder P) (r : Request) :
    (httpResponse (wh.ServeHTTP decode r)).fst = 400 ∧
    (wh.ServeHTTP decode r).countP Act.isInvoke = 0 ∧
    (wh.dispatchOutcome decode r = Outcome.missingEventKey ∨
     wh.dispatchOutcome decode r = Outcome.unknownHandler) := by
  by_cases hk : headersGet r.headers "X-Event-Key" = ""
  · have etr : wh.ServeHTTP decode r = [] ++ wh.badRequest "Missing X-Event-Key" := by
      simp [Webhook.ServeHTTP, headersGet_single, hk]
    have ho : wh.dispatchOutcome decode r = Outcome.missingEventKey := by
      simp [Webhook.dispatchOutcome, headersGet_single, hk]
    refine ⟨?_, ?_, Or.inl ho⟩
    · rw [etr, httpResponse_append_badRequest]
    · rw [etr]
      cases hlo : wh.logOnError <;>
        simp [Webhook.badRequest, hlo, Act.isInvoke]
  · have hl := hempty (headersGet r.headers "X-Event-Key")
    have etr : wh.ServeHTTP decode r =
        [Act.lookupHandler (headersGet r.headers "X-Event-Key")] ++
          wh.badRequest ("No handler for the event key: " ++
            headersGet r.headers "X-Event-Key") := by
      simp [Webhook.ServeHTTP, headersGet_single, hk, hl]
    have ho : wh.dispatchOutcome decode r = Outcome.unknownHandler := by
      simp [Webhook.dispatchOutcome, headersGet_single, hk, hl]
    refine ⟨?_, ?_, Or.inr ho⟩
    · rw [etr, httpResponse_append_badRequest]
    · rw [etr]
      cases hlo : wh.logOnError <;>
        simp [Webhook.badRequest, hlo, Act.isInvoke]

/-- C9: a dispatcher with no registered handlers — including the zero value
whose registry is nil — serves every request with a client-error response
classified MissingEventKey or UnknownHandler, never invoking a handler and
never reaching the success path. -/
theorem serveHTTP_empty_registry {P : Type} (wh : Webhook P)
    (hempty : ∀ k2, wh.handlers.lookup k2 = none)
    (decode : Decoder P) (r : Request) :
    (httpResponse (wh.ServeHTTP decode r)).fst = 400 ∧
    (wh.ServeHTTP decode r).countP Act.isInvoke = 0 ∧
    (wh.dispatchOutcome decode r = Outcome.missingEventKey ∨
     wh.dispatchOutcome decode r = Outcome.unknownHandler) ∧
    wh.dispatchOutcome decode r ≠ Outcome.success := by
  obtain ⟨hr, hcnt, hdis⟩ := serveHTTP_no_handler_400 wh hempty decode r
  refine ⟨hr, hcnt, hdis, fun hs => ?_⟩
  rcases hdis with h | h <;> rw [hs] at h <;> exact Outcome.noConfusion h

/-- C9 witness: the zero-valued webhook (nil registry) rejects a concrete
`repo:push` request with a 400. -/
theorem serveHTTP_empty_registry_witness :
    (httpResponse ((zeroWebhook Nat).ServeHTTP (fun _ _ => Except.ok 0)
      (Request.mk [("X-Event-Key", "repo:push")] "x"))).fst = 400 :=
  (serveHTTP_empty_registry (zeroWebhook Nat) (fun _ => rfl)
    (fun _ _ => Except.ok 0) (Request.mk [("X-Event-Key", "repo:push")] "x")).1

/-- C10: registering on a zero-valued Webhook (nil handler map, not built by
NewWebhook) panics — the map assignment has no result — while registering on
a NewWebhook-built instance succeeds, and dispatch on the zero value still
safely answers 400. -/
theorem handle_on_zero_value_panics (P : Type) (k : String)
    (h : WebhookHandler P) (b : Bool) (decode : Decoder P) (r : Request) :
    (Webhook.mk b GoMap.nil : Webhook P).Handle k h = none ∧
    ((NewWebhook P).Handle k h).isSome = true ∧
    (httpResponse ((Webhook.mk b GoMap.nil : Webhook P).ServeHTTP decode r)).fst
      = 400 :=
  ⟨rfl, rfl,
    (serveHTTP_no_handler_400 (Webhook.mk b GoMap.nil) (fun _ => rfl)
      decode r).1⟩

/-- C8: registering h1 then h2 under the same key leaves exactly h2 stored
under that key, leaves every other key's registration unchanged, and on a
subsequent dispatch of that key only the latest handler h2 governs the
outcome: the handler runs exactly once with the decoded payload, a nil
return from h2 yields the 200 success response and an error return from h2
yields the HandlerError 400 response. -/
theorem handle_overwrites_and_latest_wins {P : Type} (wh : Webhook P)
    (es : List (String × WebhookHandler P)) (k : String)
    (h1 h2 : WebhookHandler P) (wh1 wh2 : Webhook P)
    (hm : wh.handlers = GoMap.entries es)
    (e1 : wh.Handle k h1 = some wh1)
    (e2 : wh1.Handle k h2 = some wh2) :
    wh2.handlers.lookup k = some h2 ∧
    (∀ k2, k2 ≠ k → wh2.handlers.lookup k2 = wh.handlers.lookup k2) ∧
    wh2.logOnError = wh.logOnError ∧
    (∀ (decode : Decoder P) (r : Request) (t : EventType) (p : P),
      headersGet r.headers "X-Event-Key" = k → k ≠ "" →
      eventTypeMap k = some t → decode t r.body = Except.ok p →
      (wh2.ServeHTTP decode r).countP Act.isInvoke = 1 ∧
      Act.invokeHandler [("X-Event-Key", k)] p ∈ wh2.ServeHTTP decode r ∧
      (h2 [("X-Event-Key", k)] p = none →
        httpResponse (wh2.ServeHTTP decode r) = (200, "")) ∧
      (∀ e, h2 [("X-Event-Key", k)] p = some e →
        httpResponse (wh2.ServeHTTP decode r) =
          (400, "Error handling the event: " ++ e ++ "\n"))) := by
  have hw1 : wh1 = Webhook.mk wh.logOnError
      (GoMap.entries (assocUpdate es k h1)) := by
    simp [Webhook.Handle, hm, GoMap.insert] at e1
    exact e1.symm
  have hw2 : wh2 = Webhook.mk wh.logOnError
      (GoMap.entries (assocUpdate (assocUpdate es k h1) k h2)) := by
    simp [Webhook.Handle, hw1, GoMap.insert] at e2
    exact e2.symm
  have hlk : wh2.handlers.lookup k = some h2 := by
    rw [hw2]
    simp [GoMap.lookup, lookup_assocUpdate_self]
  refine ⟨hlk, ?_, ?_, ?_⟩
  · intro k2 hk2
    rw [hw2, hm]
    simp [GoMap.lookup, lookup_assocUpdate_ne _ _ _ _ hk2]
  · rw [hw2]
  · intro decode r t p hk hne hc hd
    cases hh : h2 [("X-Event-Key", k)] p with
    | none =>
      have etr : wh2.ServeHTTP decode r =
          [Act.lookupHandler k, Act.lookupCatalog k, Act.allocPayload,
           Act.readBody, Act.invokeHandler [("X-Event-Key", k)] p] := by
        simp [Webhook.ServeHTTP, headersGet_single, hk, hne, hlk, hc, hd, hh]
      refine ⟨?_, ?_, fun _ => ?_, fun e he => ?_⟩
      · rw [etr]
        simp [Act.isInvoke]
      · rw [etr]
        simp
      · rw [etr]
        simp [httpResponse, lastWrite]
      · exact Option.noConfusion he
    | some e0 =>
      have etr : wh2.ServeHTTP decode r =
          [Act.lookupHandler k, Act.lookupCatalog k, Act.allocPayload,
           Act.readBody, Act.invokeHandler [("X-Event-Key", k)] p] ++
            wh2.badRequest ("Error handling the event: " ++ e0) := by
        simp [Webhook.ServeHTTP, headersGet_single, hk, hne, hlk, hc, hd, hh]
      refine ⟨?_, ?_, fun hnone => ?_, fun e he => ?_⟩
      · rw [etr]
        cases hlo : wh2.logOnError <;>
          simp [Webhook.badRequest, hlo, Act.isInvoke]
      · rw [etr]
        simp
      · exact Option.noConfusion hnone
      · injection he with he2
        rw [etr, httpResponse_append_badRequest, he2]

/-- C8 witness: after registering an erroring handler and then a succeeding
handler under `repo:push` on a fresh webhook, the registry stores exactly
the second handler under that key. -/
theorem handle_overwrite_witness :
    (Webhook.mk false (GoMap.entries
      [("repo:push", (fun _ _ => none : WebhookHandler Nat))])).handlers.lookup
        "repo:push" = some (fun _ _ => none) :=
  (handle_overwrites_and_latest_wins (NewWebhook Nat) [] "repo:push"
    (fun _ _ => some "old") (fun _ _ => none)
    (Webhook.mk false (GoMap.entries
      [("repo:push", fun _ _ => some "old")]))
    (Webhook.mk false (GoMap.entries [("repo:push", fun _ _ => none)]))
    rfl rfl rfl).1
